import Mathlib

/-!
Shallow embedding of `src/groupby/groupby.cuh` (libgdf hash-based group-by
dispatch and AVG composition layer).

Modelling conventions:
* Machine integers are modelled as `Int` with explicit wrapping where a C++
  conversion can change the value (`wrapSigned`).
* The external hash-aggregation primitive `GroupbyHash` (declared in
  `hash/groupby_compute_api.h`, not part of the analysed sources) is a
  parameter of type `Backend`; `none` models a non-`cudaSuccess` return.
* Effects are made explicit: a `SimState` threads the number of
  `cudaMalloc`/`cudaFree` calls issued by this layer and the list of backend
  invocations (with the template types each was instantiated at).
* `CallResult` distinguishes an ordinary return value from the two
  non-returning behaviours present in the source: reading
  `in_groupby_columns[0]` / `out_groupby_columns[0]` of an empty array
  (undefined behaviour) and a failed `assert` (uncatchable fault).
-/

/-- The `gdf_dtype` enum of gdf.h (the members relevant to this layer:
the six numeric tags plus representatives of the unsupported tags). -/
inductive gdf_dtype where
  | GDF_invalid
  | GDF_INT8
  | GDF_INT16
  | GDF_INT32
  | GDF_INT64
  | GDF_FLOAT32
  | GDF_FLOAT64
  | GDF_DATE32
  | GDF_DATE64
  | GDF_TIMESTAMP
  | GDF_CATEGORY
  | GDF_STRING
deriving DecidableEq, Repr

/-- The `gdf_error` values returned by this layer. -/
inductive gdf_error where
  | GDF_SUCCESS
  | GDF_CUDA_ERROR
  | GDF_UNSUPPORTED_DTYPE
  | GDF_GROUPBY_TOO_MANY_COLUMNS
deriving DecidableEq, Repr

/-- The C++ scalar types this layer instantiates its templates at:
`int8_t`, `int16_t`, `int32_t`, `int64_t`, `float`, `double`, `size_t`. -/
inductive ctype where
  | i8
  | i16
  | i32
  | i64
  | f32
  | f64
  | szt
deriving DecidableEq, Repr

/-- The aggregation-operation functors of `hash/aggregation_operations.cuh`
(`count_op`, `sum_op`, `min_op`, `max_op`), modelled as tags; the dispatch
code only ever tests `is_same_functor<count_op, op>::value`, i.e. equality
with `count_op`. -/
inductive agg_op where
  | count_op
  | sum_op
  | min_op
  | max_op
deriving DecidableEq, Repr

/-- A `gdf_column`: element-type tag, element count, and the buffer contents
(the mathematical values stored; `[]` for a freshly `cudaMalloc`ed buffer
whose contents are unspecified).  The validity mask is unused on this path. -/
structure gdf_column where
  dtype : gdf_dtype
  size : Nat
  data : List Int
deriving DecidableEq, Repr

/-- Explicit effect trace: number of `cudaMalloc` calls issued by this layer,
number of `cudaFree` calls, and the backend invocations in order, each
recorded with (groupby_type, aggregation_type, operator, sort_result). -/
structure SimState where
  allocs : Nat
  frees : Nat
  calls : List (ctype × ctype × agg_op × Bool)
deriving DecidableEq, Repr

/-- Modelled from the spec: the external hash-aggregation primitive
`GroupbyHash` of `hash/groupby_compute_api.h` (the `HashAggregate`
capability interface of the spec), whose implementation is not part of the
analysed sources.  Given the template instantiation types, the operator, the
sort flag, the key data, the value data and the input size, it either fails
(`none`, a non-`cudaSuccess` return) or produces the output keys, output
aggregates and the distinct-group count.  Being a function, it is
deterministic, as the spec requires of the primitive. -/
def Backend : Type :=
  ctype → ctype → agg_op → Bool → List Int → List Int → Nat →
    Option (List Int × List Int × Nat)

/-- Result record for the group-by entry points: the returned `gdf_error`,
the (possibly updated) output columns, and the effect trace. -/
structure GbResult where
  err : gdf_error
  out_groupby_columns : List gdf_column
  out_aggregation_column : gdf_column
  st : SimState
deriving DecidableEq, Repr

/-- Outcome of a call: an ordinary return, an out-of-bounds read of a
column array (undefined behaviour), or a failed `assert` (uncatchable). -/
inductive CallResult (α : Type) where
  | ok (r : α)
  | undefinedRead
  | assertFailed
deriving DecidableEq, Repr

/-- `dispatched_groupby<groupby_type, aggregation_type, op>`: casts the
column buffers to the instantiated types, invokes the backend `GroupbyHash`,
and on success updates the sizes of `out_groupby_columns[0]` and
`out_aggregation_column` to the distinct count; on backend failure returns
`GDF_CUDA_ERROR` with the sizes not updated. -/
def dispatched_groupby (groupby_type aggregation_type : ctype) (op : agg_op)
    (backend : Backend) (ncols : Nat)
    (in_groupby_columns : List gdf_column) (in_aggregation_column : gdf_column)
    (out_groupby_columns : List gdf_column) (out_aggregation_column : gdf_column)
    (sort_result : Bool) (st : SimState) : CallResult GbResult :=
  match in_groupby_columns.head?, out_groupby_columns.head? with
  | some in0, some out0 =>
    let in_size := in0.size
    let st1 : SimState :=
      { st with calls := st.calls ++ [(groupby_type, aggregation_type, op, sort_result)] }
    match backend groupby_type aggregation_type op sort_result
            in0.data in_aggregation_column.data in_size with
    | none =>
      .ok { err := .GDF_CUDA_ERROR,
            out_groupby_columns := out_groupby_columns,
            out_aggregation_column := out_aggregation_column,
            st := st1 }
    | some (out_keys, out_vals, out_size) =>
      .ok { err := .GDF_SUCCESS,
            out_groupby_columns :=
              { out0 with size := out_size, data := out_keys } :: out_groupby_columns.tail,
            out_aggregation_column :=
              { out_aggregation_column with size := out_size, data := out_vals },
            st := st1 }
  | _, _ => .undefinedRead

/-- `dispatch_aggregation_type<groupby_type, op>`: chooses the aggregation
column type (the OUTPUT column's dtype when `op` is `count_op`, otherwise
the input aggregation column's dtype) and switches on it; an unrecognised
tag returns `GDF_UNSUPPORTED_DTYPE`. -/
def dispatch_aggregation_type (groupby_type : ctype) (op : agg_op)
    (backend : Backend) (ncols : Nat)
    (in_groupby_columns : List gdf_column) (in_aggregation_column : gdf_column)
    (out_groupby_columns : List gdf_column) (out_aggregation_column : gdf_column)
    (sort_result : Bool) (st : SimState) : CallResult GbResult :=
  let aggregation_column_type :=
    if op = .count_op then out_aggregation_column.dtype
    else in_aggregation_column.dtype
  match aggregation_column_type with
  | .GDF_INT8 =>
    dispatched_groupby groupby_type .i8 op backend ncols in_groupby_columns
      in_aggregation_column out_groupby_columns out_aggregation_column sort_result st
  | .GDF_INT16 =>
    dispatched_groupby groupby_type .i16 op backend ncols in_groupby_columns
      in_aggregation_column out_groupby_columns out_aggregation_column sort_result st
  | .GDF_INT32 =>
    dispatched_groupby groupby_type .i32 op backend ncols in_groupby_columns
      in_aggregation_column out_groupby_columns out_aggregation_column sort_result st
  | .GDF_INT64 =>
    dispatched_groupby groupby_type .i64 op backend ncols in_groupby_columns
      in_aggregation_column out_groupby_columns out_aggregation_column sort_result st
  | .GDF_FLOAT32 =>
    dispatched_groupby groupby_type .f32 op backend ncols in_groupby_columns
      in_aggregation_column out_groupby_columns out_aggregation_column sort_result st
  | .GDF_FLOAT64 =>
    dispatched_groupby groupby_type .f64 op backend ncols in_groupby_columns
      in_aggregation_column out_groupby_columns out_aggregation_column sort_result st
  | _ =>
    .ok { err := .GDF_UNSUPPORTED_DTYPE,
          out_groupby_columns := out_groupby_columns,
          out_aggregation_column := out_aggregation_column,
          st := st }

/-- `dispatch_groupby_type<op>`: reads `in_groupby_columns[0]->dtype`
(undefined behaviour when the array is empty) and switches on it; the
floating-point tags are routed to the equal-width INTEGRAL instantiation
(`GDF_FLOAT32` to `int32_t`, `GDF_FLOAT64` to `int64_t`); an unrecognised
tag returns `GDF_UNSUPPORTED_DTYPE`. -/
def dispatch_groupby_type (op : agg_op) (backend : Backend) (ncols : Nat)
    (in_groupby_columns : List gdf_column) (in_aggregation_column : gdf_column)
    (out_groupby_columns : List gdf_column) (out_aggregation_column : gdf_column)
    (sort_result : Bool) (st : SimState) : CallResult GbResult :=
  match in_groupby_columns.head? with
  | none => .undefinedRead
  | some in0 =>
    match in0.dtype with
    | .GDF_INT8 =>
      dispatch_aggregation_type .i8 op backend ncols in_groupby_columns
        in_aggregation_column out_groupby_columns out_aggregation_column sort_result st
    | .GDF_INT16 =>
      dispatch_aggregation_type .i16 op backend ncols in_groupby_columns
        in_aggregation_column out_groupby_columns out_aggregation_column sort_result st
    | .GDF_INT32 =>
      dispatch_aggregation_type .i32 op backend ncols in_groupby_columns
        in_aggregation_column out_groupby_columns out_aggregation_column sort_result st
    | .GDF_INT64 =>
      dispatch_aggregation_type .i64 op backend ncols in_groupby_columns
        in_aggregation_column out_groupby_columns out_aggregation_column sort_result st
    | .GDF_FLOAT32 =>
      dispatch_aggregation_type .i32 op backend ncols in_groupby_columns
        in_aggregation_column out_groupby_columns out_aggregation_column sort_result st
    | .GDF_FLOAT64 =>
      dispatch_aggregation_type .i64 op backend ncols in_groupby_columns
        in_aggregation_column out_groupby_columns out_aggregation_column sort_result st
    | _ =>
      .ok { err := .GDF_UNSUPPORTED_DTYPE,
            out_groupby_columns := out_groupby_columns,
            out_aggregation_column := out_aggregation_column,
            st := st }

/-- `gdf_group_by_hash<aggregation_operation>`: rejects `ncols > 1` with
`GDF_GROUPBY_TOO_MANY_COLUMNS`, otherwise forwards to the type dispatch. -/
def gdf_group_by_hash (op : agg_op) (backend : Backend) (ncols : Nat)
    (in_groupby_columns : List gdf_column) (in_aggregation_column : gdf_column)
    (out_groupby_columns : List gdf_column) (out_aggregation_column : gdf_column)
    (sort_result : Bool) (st : SimState) : CallResult GbResult :=
  if ncols > 1 then
    .ok { err := .GDF_GROUPBY_TOO_MANY_COLUMNS,
          out_groupby_columns := out_groupby_columns,
          out_aggregation_column := out_aggregation_column,
          st := st }
  else
    dispatch_groupby_type op backend ncols in_groupby_columns
      in_aggregation_column out_groupby_columns out_aggregation_column sort_result st

/-- Mapping from a template scalar type to the `gdf_dtype` that
`create_gdf_column` deduces for it (`size_t` is `uint64_t` on the target
platform, deduced as `GDF_INT64`). -/
def ctype_to_gdf_dtype : ctype → gdf_dtype
  | .i8 => .GDF_INT8
  | .i16 => .GDF_INT16
  | .i32 => .GDF_INT32
  | .i64 => .GDF_INT64
  | .f32 => .GDF_FLOAT32
  | .f64 => .GDF_FLOAT64
  | .szt => .GDF_INT64

/-- `create_gdf_column<col_type>(size)`: fills in the dtype deduced from the
template type, the requested size, a null validity mask, and `cudaMalloc`s
the data buffer (contents unspecified, modelled as `[]`).  The allocation is
recorded in the effect trace. -/
def create_gdf_column (col_type : ctype) (size : Nat) (st : SimState) :
    gdf_column × SimState :=
  ({ dtype := ctype_to_gdf_dtype col_type, size := size, data := [] },
   { st with allocs := st.allocs + 1 })

/-- Bit width of the template scalar types. -/
def ctype_bits : ctype → Nat
  | .i8 => 8
  | .i16 => 16
  | .i32 => 32
  | .i64 => 64
  | .f32 => 32
  | .f64 => 64
  | .szt => 64

/-- Whether the template scalar type is an integral type. -/
def ctype_integral : ctype → Bool
  | .f32 => false
  | .f64 => false
  | _ => true

/-- Conversion of an integer value to a signed `w`-bit integer type: reduce
modulo `2^w` into `[-2^(w-1), 2^(w-1))` (the gcc semantics of the
implementation-defined out-of-range signed conversion). -/
def wrapSigned (w : Nat) (x : Int) : Int :=
  (x + 2 ^ (w - 1)) % 2 ^ w - 2 ^ (w - 1)

/-- The `average_op` lambda of `compute_average`:
`(sum / static_cast<avg_type>(count)) -> avg_type`.  For integral
instantiations: `count` is first converted to `avg_type`; the division is
then performed in the usual-arithmetic-conversion common type of `sum_type`
and `avg_type` (which contains both in-range operands, so it acts on the
mathematical values) truncating toward zero, and the quotient is converted
to `avg_type` on return.  A zero divisor is undefined behaviour in C++;
`Int.tdiv` returns 0 there, and no theorem relies on that value.
Floating-point instantiations are not modelled (the value 0 is a
placeholder no theorem depends on). -/
def average_op (sum_type avg_type : ctype) (sum count : Int) : Int :=
  if ctype_integral sum_type && ctype_integral avg_type then
    wrapSigned (ctype_bits avg_type)
      (Int.tdiv sum (wrapSigned (ctype_bits avg_type) count))
  else 0

/-- `compute_average<sum_type, avg_type>`: elementwise
`avg[i] = sum[i] / count[i]` over the first `count_column.size` elements
(a `thrust::transform` over the zipped buffers), then sets the average
column's size to that count. -/
def compute_average (sum_type avg_type : ctype) (avg_column : gdf_column)
    (count_column : gdf_column) (sum_column : gdf_column) : gdf_column :=
  let output_size := count_column.size
  let d_avg := List.zipWith (average_op sum_type avg_type)
      (sum_column.data.take output_size) (count_column.data.take output_size)
  { avg_column with data := d_avg, size := output_size }

/-- `multi_pass_avg<sum_type>`: allocates a `size_t` COUNT buffer, runs the
COUNT pass (its `gdf_error` result is DISCARDED, as in the source),
allocates a `sum_type` SUM buffer, runs the SUM pass (result likewise
discarded), switches on the output column's dtype to compute the averages
and only then frees the two intermediate buffers; the unrecognised-dtype
branch returns `GDF_UNSUPPORTED_DTYPE` without freeing either buffer. -/
def multi_pass_avg (sum_type : ctype) (backend : Backend) (ncols : Nat)
    (in_groupby_columns : List gdf_column) (in_aggregation_column : gdf_column)
    (out_groupby_columns : List gdf_column) (out_aggregation_column : gdf_column)
    (st : SimState) : CallResult GbResult :=
  let output_size := out_aggregation_column.size
  let sort_result := true
  let alloc_count := create_gdf_column .szt output_size st
  match gdf_group_by_hash .count_op backend ncols in_groupby_columns
          in_aggregation_column out_groupby_columns alloc_count.1 sort_result
          alloc_count.2 with
  | .undefinedRead => .undefinedRead
  | .assertFailed => .assertFailed
  | .ok r1 =>
    let alloc_sum := create_gdf_column sum_type output_size r1.st
    match gdf_group_by_hash .sum_op backend ncols in_groupby_columns
            in_aggregation_column r1.out_groupby_columns alloc_sum.1 sort_result
            alloc_sum.2 with
    | .undefinedRead => .undefinedRead
    | .assertFailed => .assertFailed
    | .ok r2 =>
      let count_output := r1.out_aggregation_column
      let sum_output := r2.out_aggregation_column
      let finish := fun (avg_type : ctype) =>
        let out_agg := compute_average sum_type avg_type out_aggregation_column
          count_output sum_output
        CallResult.ok
          { err := gdf_error.GDF_SUCCESS,
            out_groupby_columns := r2.out_groupby_columns,
            out_aggregation_column := out_agg,
            st := { r2.st with frees := r2.st.frees + 2 } }
      match out_aggregation_column.dtype with
      | .GDF_INT8 => finish .i8
      | .GDF_INT16 => finish .i16
      | .GDF_INT32 => finish .i32
      | .GDF_INT64 => finish .i64
      | .GDF_FLOAT32 => finish .f32
      | .GDF_FLOAT64 => finish .f64
      | _ =>
        .ok { err := .GDF_UNSUPPORTED_DTYPE,
              out_groupby_columns := r2.out_groupby_columns,
              out_aggregation_column := out_aggregation_column,
              st := r2.st }

/-- `gdf_group_by_hash_avg`: asserts `ncols == 1` (modelled as the
uncatchable `assertFailed` outcome when violated), then switches on the
input aggregation column's dtype to pick `sum_type` and forwards to
`multi_pass_avg`; an unrecognised dtype returns `GDF_UNSUPPORTED_DTYPE`. -/
def gdf_group_by_hash_avg (backend : Backend) (ncols : Nat)
    (in_groupby_columns : List gdf_column) (in_aggregation_column : gdf_column)
    (out_groupby_columns : List gdf_column) (out_aggregation_column : gdf_column)
    (st : SimState) : CallResult GbResult :=
  if ncols = 1 then
    match in_aggregation_column.dtype with
    | .GDF_INT8 =>
      multi_pass_avg .i8 backend ncols in_groupby_columns in_aggregation_column
        out_groupby_columns out_aggregation_column st
    | .GDF_INT16 =>
      multi_pass_avg .i16 backend ncols in_groupby_columns in_aggregation_column
        out_groupby_columns out_aggregation_column st
    | .GDF_INT32 =>
      multi_pass_avg .i32 backend ncols in_groupby_columns in_aggregation_column
        out_groupby_columns out_aggregation_column st
    | .GDF_INT64 =>
      multi_pass_avg .i64 backend ncols in_groupby_columns in_aggregation_column
        out_groupby_columns out_aggregation_column st
    | .GDF_FLOAT32 =>
      multi_pass_avg .f32 backend ncols in_groupby_columns in_aggregation_column
        out_groupby_columns out_aggregation_column st
    | .GDF_FLOAT64 =>
      multi_pass_avg .f64 backend ncols in_groupby_columns in_aggregation_column
        out_groupby_columns out_aggregation_column st
    | _ =>
      .ok { err := .GDF_UNSUPPORTED_DTYPE,
            out_groupby_columns := out_groupby_columns,
            out_aggregation_column := out_aggregation_column,
            st := st }
  else .assertFailed

/-- First-level resolution table of `dispatch_groupby_type`: the template
`groupby_type` chosen for each key dtype (floating tags map to the
equal-width integral type), `none` for unsupported tags. -/
def groupby_path : gdf_dtype → Option ctype
  | .GDF_INT8 => some .i8
  | .GDF_INT16 => some .i16
  | .GDF_INT32 => some .i32
  | .GDF_INT64 => some .i64
  | .GDF_FLOAT32 => some .i32
  | .GDF_FLOAT64 => some .i64
  | _ => none

/-- Second-level resolution table of `dispatch_aggregation_type`: the
template `aggregation_type` chosen for each dtype, `none` for unsupported
tags. -/
def agg_path : gdf_dtype → Option ctype
  | .GDF_INT8 => some .i8
  | .GDF_INT16 => some .i16
  | .GDF_INT32 => some .i32
  | .GDF_INT64 => some .i64
  | .GDF_FLOAT32 => some .f32
  | .GDF_FLOAT64 => some .f64
  | _ => none

/-- Modelled from the spec: "Elementwise division for i in [0, N):
`avg[i] = sum[i] / count[i]`, computed in the caller-declared output
element type" — read as taking both operands in the output element type
and performing the truncating division there. -/
def spec_average_in_output_type (avg_type : ctype) (sum count : Int) : Int :=
  wrapSigned (ctype_bits avg_type)
    (Int.tdiv (wrapSigned (ctype_bits avg_type) sum)
      (wrapSigned (ctype_bits avg_type) count))

/-- Empty effect trace. -/
def st0 : SimState := { allocs := 0, frees := 0, calls := [] }

/-- Test fixture: an `int32` key column with two equal keys. -/
def kcolI32 : gdf_column := { dtype := .GDF_INT32, size := 2, data := [1, 1] }

/-- Test fixture: an `int32` value column. -/
def vcolI32 : gdf_column := { dtype := .GDF_INT32, size := 2, data := [10, 20] }

/-- Test fixture: an `int16` value column. -/
def vcolI16 : gdf_column := { dtype := .GDF_INT16, size := 2, data := [150, 150] }

/-- Test fixture: preallocated `int32` output key column. -/
def okcol : gdf_column := { dtype := .GDF_INT32, size := 2, data := [] }

/-- Test fixture: preallocated `int32` output aggregation column. -/
def oacI32 : gdf_column := { dtype := .GDF_INT32, size := 2, data := [] }

/-- Test fixture: preallocated `int8` output aggregation column. -/
def oacI8 : gdf_column := { dtype := .GDF_INT8, size := 1, data := [] }

/-- Test fixture: output aggregation column with an unsupported dtype. -/
def oacDate : gdf_column := { dtype := .GDF_DATE32, size := 2, data := [] }

/-- Test double backend: COUNT passes yield one group of cardinality 2,
all other passes yield aggregate 30 for that group. -/
def backendOk : Backend := fun _ _ op _ _ _ _ =>
  if op = .count_op then some ([1], [2], 1) else some ([1], [30], 1)

/-- Test double backend that always fails. -/
def backendFail : Backend := fun _ _ _ _ _ _ _ => none

/-- Test double backend that fails COUNT passes and succeeds otherwise. -/
def backendFailCount : Backend := fun _ _ op _ _ _ _ =>
  if op = .count_op then none else some ([1], [30], 1)

/-- Test double backend that fails SUM passes and succeeds otherwise. -/
def backendFailSum : Backend := fun _ _ op _ _ _ _ =>
  if op = .sum_op then none else some ([1], [2], 1)

/-- Test double backend: one group of cardinality 2 whose values sum
to 300. -/
def backendAvg300 : Backend := fun _ _ op _ _ _ _ =>
  if op = .count_op then some ([1], [2], 1) else some ([1], [300], 1)

/-- Test fixture: a key column with an unsupported dtype. -/
def kcolStr : gdf_column := { dtype := .GDF_STRING, size := 2, data := [] }

/-- Test fixture: a `float32` key column (values are the stored bit
patterns' mathematical meaning; irrelevant to dispatch). -/
def kcolF32 : gdf_column := { dtype := .GDF_FLOAT32, size := 2, data := [1, 1] }

/-- With at most one group-by column the entry point forwards directly to
the type dispatch. -/
theorem gdf_group_by_hash_dispatch (op : agg_op) (backend : Backend) (ncols : Nat)
    (igc : List gdf_column) (iac : gdf_column) (ogc : List gdf_column) (oac : gdf_column)
    (sr : Bool) (st : SimState) (h : ncols ≤ 1) :
    gdf_group_by_hash op backend ncols igc iac ogc oac sr st
      = dispatch_groupby_type op backend ncols igc iac ogc oac sr st := by
  unfold gdf_group_by_hash
  rw [if_neg (by omega)]

/-- The first dispatch level resolves a supported key dtype to the template
`groupby_type` given by `groupby_path`. -/
theorem dispatch_groupby_type_resolved (op : agg_op) (backend : Backend) (ncols : Nat)
    (igc : List gdf_column) (iac : gdf_column) (ogc : List gdf_column) (oac : gdf_column)
    (sr : Bool) (st : SimState) (in0 : gdf_column) (g : ctype)
    (h1 : igc.head? = some in0) (hg : groupby_path in0.dtype = some g) :
    dispatch_groupby_type op backend ncols igc iac ogc oac sr st
      = dispatch_aggregation_type g op backend ncols igc iac ogc oac sr st := by
  cases hd : in0.dtype <;> simp_all [dispatch_groupby_type, groupby_path]

/-- The first dispatch level rejects an unsupported key dtype with
`GDF_UNSUPPORTED_DTYPE`, leaving the outputs and the effect trace
untouched. -/
theorem dispatch_groupby_type_unsupported (op : agg_op) (backend : Backend) (ncols : Nat)
    (igc : List gdf_column) (iac : gdf_column) (ogc : List gdf_column) (oac : gdf_column)
    (sr : Bool) (st : SimState) (in0 : gdf_column)
    (h1 : igc.head? = some in0) (hg : groupby_path in0.dtype = none) :
    dispatch_groupby_type op backend ncols igc iac ogc oac sr st
      = .ok { err := .GDF_UNSUPPORTED_DTYPE, out_groupby_columns := ogc,
              out_aggregation_column := oac, st := st } := by
  cases hd : in0.dtype <;> simp_all [dispatch_groupby_type, groupby_path]

/-- The second dispatch level resolves a supported aggregation dtype (output
dtype for COUNT, value dtype otherwise) to the template `aggregation_type`
given by `agg_path`. -/
theorem dispatch_aggregation_type_resolved (g : ctype) (op : agg_op) (backend : Backend)
    (ncols : Nat) (igc : List gdf_column) (iac : gdf_column) (ogc : List gdf_column)
    (oac : gdf_column) (sr : Bool) (st : SimState) (a : ctype)
    (ha : agg_path (if op = .count_op then oac.dtype else iac.dtype) = some a) :
    dispatch_aggregation_type g op backend ncols igc iac ogc oac sr st
      = dispatched_groupby g a op backend ncols igc iac ogc oac sr st := by
  cases hd : (if op = .count_op then oac.dtype else iac.dtype) <;>
    simp_all [dispatch_aggregation_type, agg_path]

/-- The second dispatch level rejects an unsupported aggregation dtype with
`GDF_UNSUPPORTED_DTYPE`, leaving the outputs and the effect trace
untouched. -/
theorem dispatch_aggregation_type_unsupported (g : ctype) (op : agg_op) (backend : Backend)
    (ncols : Nat) (igc : List gdf_column) (iac : gdf_column) (ogc : List gdf_column)
    (oac : gdf_column) (sr : Bool) (st : SimState)
    (ha : agg_path (if op = .count_op then oac.dtype else iac.dtype) = none) :
    dispatch_aggregation_type g op backend ncols igc iac ogc oac sr st
      = .ok { err := .GDF_UNSUPPORTED_DTYPE, out_groupby_columns := ogc,
              out_aggregation_column := oac, st := st } := by
  cases hd : (if op = .count_op then oac.dtype else iac.dtype) <;>
    simp_all [dispatch_aggregation_type, agg_path]

/-- A successful backend call updates the output key column and the output
aggregation column to the distinct count and records the invocation. -/
theorem dispatched_groupby_ok (g a : ctype) (op : agg_op) (backend : Backend) (ncols : Nat)
    (igc : List gdf_column) (iac : gdf_column) (ogc : List gdf_column) (oac : gdf_column)
    (sr : Bool) (st : SimState) (in0 out0 : gdf_column) (ks vs : List Int) (n : Nat)
    (h1 : igc.head? = some in0) (h2 : ogc.head? = some out0)
    (hb : backend g a op sr in0.data iac.data in0.size = some (ks, vs, n)) :
    dispatched_groupby g a op backend ncols igc iac ogc oac sr st
      = .ok { err := .GDF_SUCCESS,
              out_groupby_columns := { out0 with size := n, data := ks } :: ogc.tail,
              out_aggregation_column := { oac with size := n, data := vs },
              st := { st with calls := st.calls ++ [(g, a, op, sr)] } } := by
  simp [dispatched_groupby, h1, h2, hb]

/-- A failed backend call returns `GDF_CUDA_ERROR` with the output columns
(and in particular their size fields) unchanged; the invocation is still
recorded. -/
theorem dispatched_groupby_fail (g a : ctype) (op : agg_op) (backend : Backend) (ncols : Nat)
    (igc : List gdf_column) (iac : gdf_column) (ogc : List gdf_column) (oac : gdf_column)
    (sr : Bool) (st : SimState) (in0 out0 : gdf_column)
    (h1 : igc.head? = some in0) (h2 : ogc.head? = some out0)
    (hb : backend g a op sr in0.data iac.data in0.size = none) :
    dispatched_groupby g a op backend ncols igc iac ogc oac sr st
      = .ok { err := .GDF_CUDA_ERROR,
              out_groupby_columns := ogc,
              out_aggregation_column := oac,
              st := { st with calls := st.calls ++ [(g, a, op, sr)] } } := by
  simp [dispatched_groupby, h1, h2, hb]

/-- The AVG entry point with `ncols = 1` resolves `sum_type` from the input
aggregation column's dtype and forwards to `multi_pass_avg`. -/
theorem gdf_group_by_hash_avg_resolved (backend : Backend)
    (igc : List gdf_column) (iac : gdf_column) (ogc : List gdf_column) (oac : gdf_column)
    (st : SimState) (s : ctype) (hs : agg_path iac.dtype = some s) :
    gdf_group_by_hash_avg backend 1 igc iac ogc oac st
      = multi_pass_avg s backend 1 igc iac ogc oac st := by
  cases hd : iac.dtype <;> simp_all [gdf_group_by_hash_avg, agg_path]

/-- A signed `w`-bit conversion is the identity on in-range values. -/
theorem wrapSigned_eq_self (w : Nat) (x : Int) (hw : 1 ≤ w)
    (hlo : -(2 ^ (w - 1)) ≤ x) (hhi : x < 2 ^ (w - 1)) : wrapSigned w x = x := by
  unfold wrapSigned
  have h2 : (2 : Int) ^ w = 2 ^ (w - 1) * 2 := by
    rw [← pow_succ]
    congr 1
    omega
  rw [Int.emod_eq_of_lt (by linarith) (by rw [h2]; linarith)]
  ring

/-- Every template scalar type has a positive bit width. -/
theorem one_le_ctype_bits (a : ctype) : 1 ≤ ctype_bits a := by
  cases a <;> decide

/-- Composition of the three dispatch layers on a successful backend call:
with at most one group-by column, a supported key dtype and a supported
aggregation dtype, `gdf_group_by_hash` invokes the backend once at the
resolved template types and updates both output sizes to the distinct
count. -/
theorem gdf_group_by_hash_ok (op : agg_op) (backend : Backend) (ncols : Nat)
    (igc : List gdf_column) (iac : gdf_column) (ogc : List gdf_column) (oac : gdf_column)
    (sr : Bool) (st : SimState) (in0 out0 : gdf_column) (g a : ctype)
    (ks vs : List Int) (n : Nat)
    (h1 : igc.head? = some in0) (h2 : ogc.head? = some out0) (h3 : ncols ≤ 1)
    (hg : groupby_path in0.dtype = some g)
    (ha : agg_path (if op = .count_op then oac.dtype else iac.dtype) = some a)
    (hb : backend g a op sr in0.data iac.data in0.size = some (ks, vs, n)) :
    gdf_group_by_hash op backend ncols igc iac ogc oac sr st
      = .ok { err := .GDF_SUCCESS,
              out_groupby_columns := { out0 with size := n, data := ks } :: ogc.tail,
              out_aggregation_column := { oac with size := n, data := vs },
              st := { st with calls := st.calls ++ [(g, a, op, sr)] } } := by
  rw [gdf_group_by_hash_dispatch _ _ _ _ _ _ _ _ _ h3,
      dispatch_groupby_type_resolved _ _ _ _ _ _ _ _ _ _ _ h1 hg,
      dispatch_aggregation_type_resolved _ _ _ _ _ _ _ _ _ _ _ ha,
      dispatched_groupby_ok _ _ _ _ _ _ _ _ _ _ _ _ _ _ _ _ h1 h2 hb]

/-- When both backend passes succeed, `multi_pass_avg` on a supported
output dtype runs COUNT then SUM, divides elementwise over the first
`n1` entries (the COUNT pass's distinct count), frees both intermediates,
and returns `GDF_SUCCESS`. -/
theorem multi_pass_avg_success (s : ctype) (backend : Backend)
    (igc : List gdf_column) (iac : gdf_column) (ogc : List gdf_column) (oac : gdf_column)
    (st : SimState) (in0 out0 : gdf_column) (g a : ctype)
    (ks1 cnts ks2 sums : List Int) (n1 n2 : Nat)
    (h1 : igc.head? = some in0) (h2 : ogc.head? = some out0)
    (hg : groupby_path in0.dtype = some g)
    (ha : agg_path oac.dtype = some a)
    (hs : agg_path iac.dtype = some s)
    (hbc : backend g .i64 .count_op true in0.data iac.data in0.size = some (ks1, cnts, n1))
    (hbs : backend g s .sum_op true in0.data iac.data in0.size = some (ks2, sums, n2)) :
    multi_pass_avg s backend 1 igc iac ogc oac st
      = .ok { err := .GDF_SUCCESS,
              out_groupby_columns := { out0 with size := n2, data := ks2 } :: ogc.tail,
              out_aggregation_column :=
                { oac with size := n1,
                           data := List.zipWith (average_op s a)
                             (sums.take n1) (cnts.take n1) },
              st := { st with allocs := st.allocs + 2, frees := st.frees + 2,
                              calls := st.calls ++ [(g, ctype.i64, agg_op.count_op, true),
                                (g, s, agg_op.sum_op, true)] } } := by
  unfold multi_pass_avg
  dsimp only [create_gdf_column]
  rw [gdf_group_by_hash_ok .count_op backend 1 igc iac ogc
        { dtype := ctype_to_gdf_dtype .szt, size := oac.size, data := [] } true _ in0 out0 g .i64
        ks1 cnts n1 h1 h2 (by omega) hg rfl hbc]
  dsimp only
  rw [gdf_group_by_hash_ok .sum_op backend 1 igc iac
        ({ dtype := out0.dtype, size := n1, data := ks1 } :: ogc.tail)
        { dtype := ctype_to_gdf_dtype s, size := oac.size, data := [] } true _ in0
        { dtype := out0.dtype, size := n1, data := ks1 } g s
        ks2 sums n2 h1 rfl (by omega) hg (by simpa using hs) hbs]
  dsimp only
  cases hd : oac.dtype <;>
    simp_all [agg_path, compute_average, ctype_to_gdf_dtype, List.append_assoc]

/-- C1: the claim states that a COUNT-pass or SUM-pass failure inside
`gdf_group_by_hash_avg` is propagated to the caller (with nothing freed
for a COUNT failure, and the COUNT buffer freed for a SUM failure).  The
code instead DISCARDS the `gdf_error` of both passes: with a backend that
fails the COUNT pass (resp. the SUM pass), the composite call still runs
the other pass, performs the division, frees both buffers and returns
`GDF_SUCCESS`. -/
theorem C1_pass_errors_discarded :
    (gdf_group_by_hash_avg backendFailCount 1 [kcolI32] vcolI32 [okcol] oacI32 st0
       = .ok { err := .GDF_SUCCESS,
               out_groupby_columns := [{ dtype := .GDF_INT32, size := 1, data := [1] }],
               out_aggregation_column := { dtype := .GDF_INT32, size := 2, data := [] },
               st := { allocs := 2, frees := 2,
                       calls := [(.i32, .i64, .count_op, true),
                         (.i32, .i32, .sum_op, true)] } })
    ∧ (gdf_group_by_hash_avg backendFailSum 1 [kcolI32] vcolI32 [okcol] oacI32 st0
       = .ok { err := .GDF_SUCCESS,
               out_groupby_columns := [{ dtype := .GDF_INT32, size := 1, data := [1] }],
               out_aggregation_column := { dtype := .GDF_INT32, size := 1, data := [] },
               st := { allocs := 2, frees := 2,
                       calls := [(.i32, .i64, .count_op, true),
                         (.i32, .i32, .sum_op, true)] } }) :=
  ⟨by decide, by decide⟩

/-- C2: the claim states that every intermediate buffer allocation is
matched by exactly one release on every exit path of
`gdf_group_by_hash_avg`.  On the unsupported-output-dtype exit path the
code returns after allocating BOTH intermediate buffers and freeing
NEITHER: two allocations, zero frees. -/
theorem C2_leak_on_unsupported_output_dtype :
    gdf_group_by_hash_avg backendOk 1 [kcolI32] vcolI32 [okcol] oacDate st0
      = .ok { err := .GDF_UNSUPPORTED_DTYPE,
              out_groupby_columns := [{ dtype := .GDF_INT32, size := 1, data := [1] }],
              out_aggregation_column := oacDate,
              st := { allocs := 2, frees := 0,
                      calls := [(.i32, .i64, .count_op, true),
                        (.i32, .i32, .sum_op, true)] } } := by
  decide

/-- C3 counterexample: a `gdf_group_by_hash_avg` request with two grouping
columns does NOT return `GDF_GROUPBY_TOO_MANY_COLUMNS` as an ordinary
result value; it fails the `assert(ncols == 1)`, an uncatchable fault. -/
theorem C3_counterexample :
    gdf_group_by_hash_avg backendOk 2 [kcolI32, kcolI32] vcolI32 [okcol] oacI32 st0
      = .assertFailed := by
  decide

/-- C3 (amended): for more than one grouping column, `gdf_group_by_hash`
returns `GDF_GROUPBY_TOO_MANY_COLUMNS` as an ordinary result value with no
backend invocation and no output mutation; `gdf_group_by_hash_avg`,
however, fails its `ncols == 1` assertion (an uncatchable fault) and never
returns that error code. -/
theorem C3_amended (op : agg_op) (backend : Backend) (ncols : Nat)
    (igc : List gdf_column) (iac : gdf_column) (ogc : List gdf_column) (oac : gdf_column)
    (sr : Bool) (st : SimState) (h : 1 < ncols) :
    gdf_group_by_hash op backend ncols igc iac ogc oac sr st
      = .ok { err := .GDF_GROUPBY_TOO_MANY_COLUMNS, out_groupby_columns := ogc,
              out_aggregation_column := oac, st := st }
    ∧ gdf_group_by_hash_avg backend ncols igc iac ogc oac st = .assertFailed := by
  constructor
  · unfold gdf_group_by_hash
    rw [if_pos h]
  · unfold gdf_group_by_hash_avg
    rw [if_neg (by omega)]

/-- Witness instantiating C3 (amended) at ncols = 2. -/
theorem C3_amended_witness :
    1 < 2
    ∧ (gdf_group_by_hash .sum_op backendOk 2 [kcolI32] vcolI32 [okcol] oacI32 true st0
         = .ok { err := .GDF_GROUPBY_TOO_MANY_COLUMNS, out_groupby_columns := [okcol],
                 out_aggregation_column := oacI32, st := st0 }
       ∧ gdf_group_by_hash_avg backendOk 2 [kcolI32] vcolI32 [okcol] oacI32 st0
         = .assertFailed) :=
  ⟨by decide,
   C3_amended .sum_op backendOk 2 [kcolI32] vcolI32 [okcol] oacI32 true st0 (by decide)⟩

/-- C4 counterexample: with a supported key and value dtype but an output
column whose dtype is outside the six supported tags, a SUM request does
NOT fail with `UnsupportedType`: the backend is invoked, the output column
is mutated, and the call succeeds (the output dtype is never validated for
non-COUNT operators). -/
theorem C4_counterexample :
    gdf_group_by_hash .sum_op backendOk 1 [kcolI32] vcolI32 [okcol] oacDate true st0
      = .ok { err := .GDF_SUCCESS,
              out_groupby_columns := [{ dtype := .GDF_INT32, size := 1, data := [1] }],
              out_aggregation_column := { dtype := .GDF_DATE32, size := 1, data := [30] },
              st := { allocs := 0, frees := 0,
                      calls := [(.i32, .i32, .sum_op, true)] } } := by
  decide

/-- C4 (amended): `gdf_group_by_hash` fails with `GDF_UNSUPPORTED_DTYPE` —
before any allocation or backend call, with no output mutation — exactly
when the key dtype is unsupported, or the key dtype is supported but the
operative second-level dtype (the output dtype for COUNT, the value dtype
otherwise) is unsupported; the output dtype is not validated for non-COUNT
operators.  `gdf_group_by_hash_avg` likewise rejects an unsupported value
dtype before any allocation (an unsupported output dtype is instead
detected only after both allocations and both passes, see C2). -/
theorem C4_amended :
    (∀ (op : agg_op) (backend : Backend) (ncols : Nat) (igc : List gdf_column)
        (iac : gdf_column) (ogc : List gdf_column) (oac : gdf_column) (sr : Bool)
        (st : SimState) (in0 : gdf_column),
      igc.head? = some in0 → ncols ≤ 1 →
      (groupby_path in0.dtype = none ∨
        ((∃ g, groupby_path in0.dtype = some g) ∧
          agg_path (if op = .count_op then oac.dtype else iac.dtype) = none)) →
      gdf_group_by_hash op backend ncols igc iac ogc oac sr st
        = .ok { err := .GDF_UNSUPPORTED_DTYPE, out_groupby_columns := ogc,
                out_aggregation_column := oac, st := st })
    ∧ (∀ (backend : Backend) (igc : List gdf_column) (iac : gdf_column)
        (ogc : List gdf_column) (oac : gdf_column) (st : SimState),
      agg_path iac.dtype = none →
      gdf_group_by_hash_avg backend 1 igc iac ogc oac st
        = .ok { err := .GDF_UNSUPPORTED_DTYPE, out_groupby_columns := ogc,
                out_aggregation_column := oac, st := st }) := by
  constructor
  · intro op backend ncols igc iac ogc oac sr st in0 h1 hn hcase
    rw [gdf_group_by_hash_dispatch _ _ _ _ _ _ _ _ _ hn]
    rcases hcase with hnone | ⟨⟨g, hg⟩, hanone⟩
    · exact dispatch_groupby_type_unsupported _ _ _ _ _ _ _ _ _ _ h1 hnone
    · rw [dispatch_groupby_type_resolved _ _ _ _ _ _ _ _ _ _ _ h1 hg]
      exact dispatch_aggregation_type_unsupported _ _ _ _ _ _ _ _ _ _ hanone
  · intro backend igc iac ogc oac st hnone
    cases hd : iac.dtype <;> simp_all [gdf_group_by_hash_avg, agg_path]

/-- Witness instantiating C4 (amended): an unsupported key dtype for
`gdf_group_by_hash` and an unsupported value dtype for
`gdf_group_by_hash_avg`. -/
theorem C4_amended_witness :
    (gdf_group_by_hash .sum_op backendOk 1 [kcolStr] vcolI32 [okcol] oacI32 true st0
       = .ok { err := .GDF_UNSUPPORTED_DTYPE, out_groupby_columns := [okcol],
               out_aggregation_column := oacI32, st := st0 })
    ∧ (gdf_group_by_hash_avg backendOk 1 [kcolI32] kcolStr [okcol] oacI32 st0
       = .ok { err := .GDF_UNSUPPORTED_DTYPE, out_groupby_columns := [okcol],
               out_aggregation_column := oacI32, st := st0 }) :=
  ⟨C4_amended.1 .sum_op backendOk 1 [kcolStr] vcolI32 [okcol] oacI32 true st0 kcolStr rfl
     (by decide) (Or.inl rfl),
   C4_amended.2 backendOk [kcolI32] kcolStr [okcol] oacI32 st0 rfl⟩

/-- C5 counterexample: a successful `gdf_group_by_hash_avg` call with an
`int16` value column and an `int8` output column, one group with
`sum = 300` and `count = 2`.  The division computed "in the
caller-declared output element type" (the spec's words,
`spec_average_in_output_type`) gives 22; the code divides in the common
arithmetic type of the sum and output types and only then narrows,
producing -106. -/
theorem C5_counterexample :
    (gdf_group_by_hash_avg backendAvg300 1 [kcolI32] vcolI16 [okcol] oacI8 st0
       = .ok { err := .GDF_SUCCESS,
               out_groupby_columns := [{ dtype := .GDF_INT32, size := 1, data := [1] }],
               out_aggregation_column := { dtype := .GDF_INT8, size := 1, data := [-106] },
               st := { allocs := 2, frees := 2,
                       calls := [(.i32, .i64, .count_op, true),
                         (.i32, .i16, .sum_op, true)] } })
    ∧ spec_average_in_output_type .i8 300 2 = 22
    ∧ (-106 : Int) ≠ 22 :=
  ⟨by decide, by decide, by decide⟩

/-- C5 (amended): for every successful `gdf_group_by_hash_avg` call with
integral sum and output element types, `avg[i]` equals the C++ evaluation
of `sum[i] / (avg_type)count[i]`: the count is first converted to the
output element type, the truncated division is performed in the
usual-arithmetic-conversion common type of the sum and output types (which
acts on the mathematical values), and the quotient is then converted to
the output element type — this coincides with computing in the output type
only when the sum fits in it.  The divisor is the converted count, which
equals `count[i]` (hence is nonzero) whenever `1 ≤ count[i] < 2^(w-1)` for
output width `w`; `count[i] ≥ 1` itself is a property of the backend COUNT
pass, not checked by this layer. -/
theorem C5_amended (backend : Backend) (igc : List gdf_column) (iac : gdf_column)
    (ogc : List gdf_column) (oac : gdf_column) (st : SimState) (in0 out0 : gdf_column)
    (g s a : ctype) (ks1 cnts ks2 sums : List Int) (n1 n2 : Nat)
    (h1 : igc.head? = some in0) (h2 : ogc.head? = some out0)
    (hg : groupby_path in0.dtype = some g)
    (hs : agg_path iac.dtype = some s) (ha : agg_path oac.dtype = some a)
    (hsi : ctype_integral s = true) (hai : ctype_integral a = true)
    (hbc : backend g .i64 .count_op true in0.data iac.data in0.size = some (ks1, cnts, n1))
    (hbs : backend g s .sum_op true in0.data iac.data in0.size = some (ks2, sums, n2)) :
    (∃ r, gdf_group_by_hash_avg backend 1 igc iac ogc oac st = .ok r ∧
        r.err = .GDF_SUCCESS ∧
        r.out_aggregation_column.data
          = List.zipWith
              (fun su c => wrapSigned (ctype_bits a)
                (Int.tdiv su (wrapSigned (ctype_bits a) c)))
              (sums.take n1) (cnts.take n1))
    ∧ (∀ c : Int, 1 ≤ c → c < 2 ^ (ctype_bits a - 1) →
        wrapSigned (ctype_bits a) c = c) := by
  constructor
  · rw [gdf_group_by_hash_avg_resolved backend igc iac ogc oac st s hs,
        multi_pass_avg_success s backend igc iac ogc oac st in0 out0 g a
          ks1 cnts ks2 sums n1 n2 h1 h2 hg ha hs hbc hbs]
    refine ⟨_, rfl, rfl, ?_⟩
    have hfun : average_op s a
        = fun su c => wrapSigned (ctype_bits a)
            (Int.tdiv su (wrapSigned (ctype_bits a) c)) := by
      funext su c
      simp [average_op, hsi, hai]
    rw [hfun]
  · intro c hc1 hc2
    have hp : (0 : Int) < 2 ^ (ctype_bits a - 1) := by positivity
    exact wrapSigned_eq_self (ctype_bits a) c (one_le_ctype_bits a) (by linarith) hc2

/-- Witness instantiating C5 (amended) at the concrete
`int16` sum / `int8` output example. -/
theorem C5_amended_witness :
    (∃ r, gdf_group_by_hash_avg backendAvg300 1 [kcolI32] vcolI16 [okcol] oacI8 st0
        = .ok r ∧
        r.err = .GDF_SUCCESS ∧
        r.out_aggregation_column.data
          = List.zipWith
              (fun su c => wrapSigned (ctype_bits .i8)
                (Int.tdiv su (wrapSigned (ctype_bits .i8) c)))
              (List.take 1 [(300 : Int)]) (List.take 1 [(2 : Int)]))
    ∧ (∀ c : Int, 1 ≤ c → c < 2 ^ (ctype_bits .i8 - 1) →
        wrapSigned (ctype_bits .i8) c = c) :=
  C5_amended backendAvg300 [kcolI32] vcolI16 [okcol] oacI8 st0 kcolI32 okcol
    .i32 .i16 .i8 [1] [2] [1] [300] 1 1 rfl rfl rfl rfl rfl rfl rfl rfl rfl

/-- C6: when the backend primitive reports failure, `gdf_group_by_hash`
returns `GDF_CUDA_ERROR` and leaves the output key and aggregation columns
— in particular their size fields — unchanged: no partial result. -/
theorem C6_backend_failure (op : agg_op) (backend : Backend) (ncols : Nat)
    (igc : List gdf_column) (iac : gdf_column) (ogc : List gdf_column) (oac : gdf_column)
    (sr : Bool) (st : SimState) (in0 out0 : gdf_column) (g a : ctype)
    (h1 : igc.head? = some in0) (h2 : ogc.head? = some out0) (h3 : ncols ≤ 1)
    (hg : groupby_path in0.dtype = some g)
    (ha : agg_path (if op = .count_op then oac.dtype else iac.dtype) = some a)
    (hb : backend g a op sr in0.data iac.data in0.size = none) :
    gdf_group_by_hash op backend ncols igc iac ogc oac sr st
      = .ok { err := .GDF_CUDA_ERROR, out_groupby_columns := ogc,
              out_aggregation_column := oac,
              st := { st with calls := st.calls ++ [(g, a, op, sr)] } } := by
  rw [gdf_group_by_hash_dispatch _ _ _ _ _ _ _ _ _ h3,
      dispatch_groupby_type_resolved _ _ _ _ _ _ _ _ _ _ _ h1 hg,
      dispatch_aggregation_type_resolved _ _ _ _ _ _ _ _ _ _ _ ha,
      dispatched_groupby_fail _ _ _ _ _ _ _ _ _ _ _ _ _ h1 h2 hb]

/-- Witness instantiating C6 with an always-failing backend. -/
theorem C6_backend_failure_witness :
    gdf_group_by_hash .sum_op backendFail 1 [kcolI32] vcolI32 [okcol] oacI32 true st0
      = .ok { err := .GDF_CUDA_ERROR, out_groupby_columns := [okcol],
              out_aggregation_column := oacI32,
              st := { allocs := 0, frees := 0, calls := [(.i32, .i32, .sum_op, true)] } } :=
  C6_backend_failure .sum_op backendFail 1 [kcolI32] vcolI32 [okcol] oacI32 true st0
    kcolI32 okcol .i32 .i32 rfl rfl (by decide) rfl rfl rfl

/-- C7: on success, output sizes are set to the backend's distinct-group
count: `gdf_group_by_hash` sets both the output key column's and the
output aggregation column's size to that count, and
`gdf_group_by_hash_avg` sets the output aggregation column's size to the
realized group count reported by the COUNT pass. -/
theorem C7_success_sizes :
    (∀ (op : agg_op) (backend : Backend) (ncols : Nat) (igc : List gdf_column)
        (iac : gdf_column) (ogc : List gdf_column) (oac : gdf_column) (sr : Bool)
        (st : SimState) (in0 out0 : gdf_column) (g a : ctype) (ks vs : List Int) (n : Nat),
      igc.head? = some in0 → ogc.head? = some out0 → ncols ≤ 1 →
      groupby_path in0.dtype = some g →
      agg_path (if op = .count_op then oac.dtype else iac.dtype) = some a →
      backend g a op sr in0.data iac.data in0.size = some (ks, vs, n) →
      gdf_group_by_hash op backend ncols igc iac ogc oac sr st
        = .ok { err := .GDF_SUCCESS,
                out_groupby_columns := { out0 with size := n, data := ks } :: ogc.tail,
                out_aggregation_column := { oac with size := n, data := vs },
                st := { st with calls := st.calls ++ [(g, a, op, sr)] } })
    ∧ (∀ (backend : Backend) (igc : List gdf_column) (iac : gdf_column)
        (ogc : List gdf_column) (oac : gdf_column) (st : SimState) (in0 out0 : gdf_column)
        (g s a : ctype) (ks1 cnts ks2 sums : List Int) (n1 n2 : Nat),
      igc.head? = some in0 → ogc.head? = some out0 →
      groupby_path in0.dtype = some g → agg_path iac.dtype = some s →
      agg_path oac.dtype = some a →
      backend g .i64 .count_op true in0.data iac.data in0.size = some (ks1, cnts, n1) →
      backend g s .sum_op true in0.data iac.data in0.size = some (ks2, sums, n2) →
      ∃ r, gdf_group_by_hash_avg backend 1 igc iac ogc oac st = .ok r ∧
        r.err = .GDF_SUCCESS ∧ r.out_aggregation_column.size = n1) := by
  constructor
  · intro op backend ncols igc iac ogc oac sr st in0 out0 g a ks vs n h1 h2 h3 hg ha hb
    exact gdf_group_by_hash_ok op backend ncols igc iac ogc oac sr st in0 out0 g a
      ks vs n h1 h2 h3 hg ha hb
  · intro backend igc iac ogc oac st in0 out0 g s a ks1 cnts ks2 sums n1 n2
      h1 h2 hg hs ha hbc hbs
    rw [gdf_group_by_hash_avg_resolved backend igc iac ogc oac st s hs,
        multi_pass_avg_success s backend igc iac ogc oac st in0 out0 g a
          ks1 cnts ks2 sums n1 n2 h1 h2 hg ha hs hbc hbs]
    exact ⟨_, rfl, rfl, rfl⟩

/-- Witness instantiating C7 at concrete inputs (distinct count 1). -/
theorem C7_success_sizes_witness :
    (gdf_group_by_hash .sum_op backendOk 1 [kcolI32] vcolI32 [okcol] oacI32 true st0
       = .ok { err := .GDF_SUCCESS,
               out_groupby_columns := [{ dtype := .GDF_INT32, size := 1, data := [1] }],
               out_aggregation_column := { dtype := .GDF_INT32, size := 1, data := [30] },
               st := { allocs := 0, frees := 0, calls := [(.i32, .i32, .sum_op, true)] } })
    ∧ (∃ r, gdf_group_by_hash_avg backendOk 1 [kcolI32] vcolI32 [okcol] oacI32 st0
          = .ok r ∧ r.err = .GDF_SUCCESS ∧ r.out_aggregation_column.size = 1) :=
  ⟨C7_success_sizes.1 .sum_op backendOk 1 [kcolI32] vcolI32 [okcol] oacI32 true st0
     kcolI32 okcol .i32 .i32 [1] [30] 1 rfl rfl (by decide) rfl rfl rfl,
   C7_success_sizes.2 backendOk [kcolI32] vcolI32 [okcol] oacI32 st0 kcolI32 okcol
     .i32 .i32 .i32 [1] [2] [1] [30] 1 1 rfl rfl rfl rfl rfl rfl rfl⟩

/-- C8: the second dispatch level resolves the specialized execution path
from the value column's dtype, except when the operator is COUNT, in which
case the output column's dtype is used instead. -/
theorem C8_second_dispatch (g : ctype) (op : agg_op) (backend : Backend) (ncols : Nat)
    (igc : List gdf_column) (iac : gdf_column) (ogc : List gdf_column) (oac : gdf_column)
    (sr : Bool) (st : SimState) (a : ctype)
    (ha : agg_path (if op = .count_op then oac.dtype else iac.dtype) = some a) :
    dispatch_aggregation_type g op backend ncols igc iac ogc oac sr st
      = dispatched_groupby g a op backend ncols igc iac ogc oac sr st :=
  dispatch_aggregation_type_resolved g op backend ncols igc iac ogc oac sr st a ha

/-- Witness instantiating C8 with a COUNT operator whose value column is
`int16` but whose output column is `int32`: the `int32` path is taken. -/
theorem C8_second_dispatch_witness :
    agg_path (if agg_op.count_op = agg_op.count_op then oacI32.dtype else vcolI16.dtype)
        = some ctype.i32
    ∧ dispatch_aggregation_type .i32 .count_op backendOk 1 [kcolI32] vcolI16 [okcol]
          oacI32 true st0
        = dispatched_groupby .i32 .i32 .count_op backendOk 1 [kcolI32] vcolI16 [okcol]
          oacI32 true st0 :=
  ⟨rfl, C8_second_dispatch .i32 .count_op backendOk 1 [kcolI32] vcolI16 [okcol] oacI32
     true st0 .i32 rfl⟩

/-- C9: a floating-point key dtype dispatches to the equal-width integer
key path: a `GDF_FLOAT32` key column takes the `int32_t` path and a
`GDF_FLOAT64` key column takes the `int64_t` path. -/
theorem C9_float_key_integer_path (op : agg_op) (backend : Backend) (ncols : Nat)
    (igc : List gdf_column) (iac : gdf_column) (ogc : List gdf_column) (oac : gdf_column)
    (sr : Bool) (st : SimState) (in0 : gdf_column)
    (h1 : igc.head? = some in0) (hn : ncols ≤ 1) :
    (in0.dtype = .GDF_FLOAT32 →
      gdf_group_by_hash op backend ncols igc iac ogc oac sr st
        = dispatch_aggregation_type .i32 op backend ncols igc iac ogc oac sr st)
    ∧ (in0.dtype = .GDF_FLOAT64 →
      gdf_group_by_hash op backend ncols igc iac ogc oac sr st
        = dispatch_aggregation_type .i64 op backend ncols igc iac ogc oac sr st) := by
  refine ⟨fun hd => ?_, fun hd => ?_⟩
  · rw [gdf_group_by_hash_dispatch _ _ _ _ _ _ _ _ _ hn,
        dispatch_groupby_type_resolved op backend ncols igc iac ogc oac sr st in0 .i32
          h1 (by rw [hd]; rfl)]
  · rw [gdf_group_by_hash_dispatch _ _ _ _ _ _ _ _ _ hn,
        dispatch_groupby_type_resolved op backend ncols igc iac ogc oac sr st in0 .i64
          h1 (by rw [hd]; rfl)]

/-- Witness instantiating C9 with a `float32` key column. -/
theorem C9_float_key_integer_path_witness :
    ([kcolF32] : List gdf_column).head? = some kcolF32
    ∧ gdf_group_by_hash .sum_op backendOk 1 [kcolF32] vcolI32 [okcol] oacI32 true st0
        = dispatch_aggregation_type .i32 .sum_op backendOk 1 [kcolF32] vcolI32 [okcol]
          oacI32 true st0 :=
  ⟨rfl, (C9_float_key_integer_path .sum_op backendOk 1 [kcolF32] vcolI32 [okcol] oacI32
     true st0 kcolF32 rfl (by decide)).1 rfl⟩

/-- C10: the column-count check rejects only `ncols > 1`, so a call with
zero grouping columns is not rejected and proceeds into the dispatch,
which unconditionally reads the first entry of the grouping-column array
(undefined behaviour when the array is empty). -/
theorem C10_zero_columns_not_rejected (op : agg_op) (backend : Backend)
    (iac : gdf_column) (ogc : List gdf_column) (oac : gdf_column) (sr : Bool)
    (st : SimState) :
    gdf_group_by_hash op backend 0 [] iac ogc oac sr st = .undefinedRead
    ∧ ∀ igc : List gdf_column,
        gdf_group_by_hash op backend 0 igc iac ogc oac sr st
          = dispatch_groupby_type op backend 0 igc iac ogc oac sr st :=
  ⟨rfl, fun _ => rfl⟩
